import Mathlib

/-!
Verification of the `rrepos` multi-repository tool.

This file gives a shallow embedding, in Lean, of the parts of the Rust
sources that the checked properties are about:

* the repository catalog and its filters (`src/config/loader.rs`,
  `src/config/repository.rs`);
* the command runner and its transcript file (`src/runner.rs`);
* the per-repository dispatch loops (`src/main.rs`,
  `src/commands/run.rs`);
* the pull-request workflow (`src/github/api.rs`, `src/git.rs`).

Effectful pieces (the filesystem, the child process, the two stream
pumps, the git subprocesses) are embedded by passing the ambient state
explicitly: the working directory, a directory-existence predicate, the
lines produced by the child on each stream together with the order in
which the two pumps acquire the transcript lock, the child's exit
status, and the results of each opaque git call.  Every definition
follows the corresponding Rust function; definitions whose doc comment
starts with `Spec model:` instead follow the natural-language
specification's words, to be compared with the embedded code.
-/

namespace RRepos

/-- A catalog entry, embedding `Repository` from `src/config/repository.rs`.
`config_dir` is the resolved catalog directory (absent when unknown). -/
structure Repository where
  name : String
  url : String
  tags : List String
  path : Option String
  branch : Option String
  config_dir : Option String
deriving DecidableEq, Repr

/-- The loaded catalog, embedding `Config` from `src/config/loader.rs`. -/
structure Config where
  repositories : List Repository
deriving DecidableEq, Repr

/-- Embeds `Repository::has_tag`: `self.tags.iter().any(|t| t == tag)`. -/
def Repository.has_tag (r : Repository) (tag : String) : Bool :=
  r.tags.any (fun t => t == tag)

/-- Embeds `Config::filter_by_names` (`src/config/loader.rs` lines 44-54):
an empty name list returns a clone of all repositories, otherwise the
repositories whose name the list contains, in catalog order. -/
def Config.filter_by_names (c : Config) (names : List String) : List Repository :=
  if names.isEmpty then c.repositories
  else c.repositories.filter (fun repo => names.contains repo.name)

/-- Embeds `Config::filter_by_tag` (`src/config/loader.rs` lines 57-67). -/
def Config.filter_by_tag (c : Config) (tag : Option String) : List Repository :=
  match tag with
  | some t => c.repositories.filter (fun repo => repo.has_tag t)
  | none => c.repositories

/-- Embeds `Config::filter_repositories` (`src/config/loader.rs` lines
164-185): with both filters, names first and then the tag predicate;
with one filter, that filter alone; with none, all repositories. -/
def Config.filter_repositories (c : Config) (tag : Option String)
    (repos : Option (List String)) : List Repository :=
  match tag, repos with
  | some t, some repo_names =>
      (c.filter_by_names repo_names).filter (fun repo => repo.has_tag t)
  | none, some repo_names => c.filter_by_names repo_names
  | some t, none => c.filter_by_tag (some t)
  | none, none => c.repositories

/-- Spec model: the filtering table of §4.1 as amended for an explicitly
present but empty name list, which the code treats exactly like an
absent names filter (so with a tag it reduces to the tag filter alone). -/
def filterSpec (c : Config) (tag : Option String)
    (names : Option (List String)) : List Repository :=
  match tag, names with
  | none, none => c.repositories
  | some t, none => c.repositories.filter (fun repo => repo.has_tag t)
  | none, some ns =>
      if ns.isEmpty then c.repositories
      else c.repositories.filter (fun repo => ns.contains repo.name)
  | some t, some ns =>
      if ns.isEmpty then c.repositories.filter (fun repo => repo.has_tag t)
      else c.repositories.filter (fun repo => repo.has_tag t && ns.contains repo.name)

/-- The two-repository sample catalog used by the spec's filtering
example: `repo1{tags:[frontend]}` and `repo2{tags:[backend]}`. -/
def sampleRepo1 : Repository :=
  { name := "repo1", url := "git@github.com:owner/repo1.git",
    tags := ["frontend"], path := none, branch := none, config_dir := none }

/-- Second repository of the sample catalog. -/
def sampleRepo2 : Repository :=
  { name := "repo2", url := "git@github.com:owner/repo2.git",
    tags := ["backend"], path := none, branch := none, config_dir := none }

/-- The sample catalog `[repo1, repo2]`. -/
def sampleConfig : Config := { repositories := [sampleRepo1, sampleRepo2] }

/-- A path is absolute when it has a root; on Unix, `Path::is_absolute`
holds exactly for paths starting with the separator. -/
def isAbsolute (p : String) : Bool :=
  p.data.head? == some '/'

/-- Models `PathBuf::join`/`push` on the string renderings used by the
code: an absolute right-hand side replaces the left, an empty left
yields the right, and otherwise a single separator is inserted unless
the left already ends with one. -/
def pathJoin (a b : String) : String :=
  if isAbsolute b then b
  else if a = "" then b
  else if a.data.getLast? == some '/' then a ++ b
  else a ++ "/" ++ b

/-- Embeds `Repository::get_target_dir` (`src/config/repository.rs` lines
68-103).  `cwd` stands for `std::env::current_dir()`, which the code
falls back to when `config_dir` is absent. -/
def Repository.get_target_dir (cwd : String) (r : Repository) : String :=
  match r.path with
  | some p =>
      if isAbsolute p then p
      else
        match r.config_dir with
        | some config_dir => pathJoin config_dir p
        | none => pathJoin cwd p
  | none =>
      let default_path := "cloned_repos/" ++ r.name
      match r.config_dir with
      | some config_dir => pathJoin config_dir default_path
      | none => pathJoin cwd default_path

/-- Spec model: `resolveTargetDir` as worded in §4.1 — absolute `path`
as-is; relative `path` joined with the catalog directory, falling back
to the process working directory when that is unknown; no `path` gives
`<catalog-dir>/cloned_repos/<name>` with the same fallback. -/
def resolveTargetDirSpec (cwd : String) (r : Repository) : String :=
  match r.path with
  | some p => if isAbsolute p then p else pathJoin (r.config_dir.getD cwd) p
  | none => pathJoin (r.config_dir.getD cwd) ("cloned_repos/" ++ r.name)

/-- The `=== STDERR ===` marker line the stderr pump writes once. -/
def markerStr : String := "=== STDERR ==="

/-- The transcript header block written by
`CommandRunner::prepare_log_file` (`src/runner.rs` lines 144-148): four
labelled lines, then the blank line and `=== STDOUT ===` produced by
`writeln!(log_file, "\n=== STDOUT ===")`. -/
def headerLines (name command dir timestamp : String) : List String :=
  ["Repository: " ++ name,
   "Command: " ++ command,
   "Directory: " ++ dir,
   "Timestamp: " ++ timestamp,
   "",
   "=== STDOUT ==="]

/-- One item appended to the transcript body by a stream pump: a logged
stdout line, the one-time stderr marker, or a logged stderr line. -/
inductive LogItem where
  | outLine (l : String)
  | stderrMarker
  | errLine (l : String)
deriving DecidableEq, Repr

/-- A transcript-lock event: `(true, l)` is the stdout pump logging line
`l`, `(false, l)` the stderr pump logging line `l`.  The event list is
the order in which the two pumps acquire the shared lock; each pump's
own lines appear in source order within it. -/
def eventLines (b : Bool) (events : List (Bool × String)) : List String :=
  (events.filter (fun e => e.1 == b)).map (fun e => e.2)

/-- The transcript body produced by the two stream pumps of
`CommandRunner::run_command` (`src/runner.rs` lines 65-110) for a given
lock order.  The stdout pump appends its line; the stderr pump, holding
the lock, first writes the `=== STDERR ===` marker if it has not yet
done so (`header_written`), then its line. -/
def logBody : List (Bool × String) → Bool → List LogItem
  | [], _ => []
  | (true, l) :: rest, header_written => .outLine l :: logBody rest header_written
  | (false, l) :: rest, header_written =>
      if header_written then .errLine l :: logBody rest header_written
      else .stderrMarker :: .errLine l :: logBody rest true

/-- The transcript lines one body item expands to: logged lines carry the
`<repo> | ` console prefix (`writeln!(log_file, "{repo_name} | {line}")`),
and the marker is written as `writeln!(log_file, "\n=== STDERR ===")`,
i.e. a blank line followed by the marker line. -/
def renderItem (name : String) : LogItem → List String
  | .outLine l => [name ++ " | " ++ l]
  | .stderrMarker => ["", markerStr]
  | .errLine l => [name ++ " | " ++ l]

/-- All transcript lines of a body item list, in order. -/
def renderItems (name : String) : List LogItem → List String
  | [] => []
  | item :: rest => renderItem name item ++ renderItems name rest

/-- The ambient behaviour of one child-process execution: whether the
shell spawn succeeds (`some` an error text when it fails), the lines the
pumps log in lock order, and the exit status (`none` when
signal-terminated, so `status.code()` is `None`). -/
structure Exec where
  spawn : Option String
  events : List (Bool × String)
  exitCode : Option Int
deriving DecidableEq, Repr

deriving instance DecidableEq for Except

/-- What one `CommandRunner::run_command` invocation did: its returned
`Result`, the transcript file's lines when one was created, and whether
a child process was spawned. -/
structure RunResult where
  outcome : Except String Unit
  transcript : Option (List String)
  spawned : Bool
deriving DecidableEq, Repr

/-- Embeds the exit-status handling of `CommandRunner::run_command`
(`src/runner.rs` lines 116-123): `status.success()` holds exactly for
exit code 0; otherwise the call fails with a message built from
`status.code().unwrap_or(-1)`. -/
def exitOutcome (code : Option Int) : Except String Unit :=
  if code = some 0 then .ok ()
  else .error ("Command failed with exit code: " ++ toString (code.getD (-1)))

/-- Embeds `CommandRunner::run_command` (`src/runner.rs` lines 25-126):
resolve the target directory and fail when it does not exist; otherwise
create the transcript (header included) when a log directory was given,
spawn the shell, run the two pumps, join them, and map the exit status
to the outcome.  `cwd`, `timestamp`, `dirExists` and `ex` pass the
ambient state explicitly. -/
def run_command (cwd timestamp : String) (dirExists : String → Bool)
    (repo : Repository) (command : String) (log_dir : Option String)
    (ex : Exec) : RunResult :=
  let repo_dir := repo.get_target_dir cwd
  if !dirExists repo_dir then
    { outcome := .error ("Repository directory does not exist: " ++ repo_dir),
      transcript := none, spawned := false }
  else
    let header := headerLines repo.name command repo_dir timestamp
    let log_file : Option (List String) := log_dir.map (fun _ => header)
    match ex.spawn with
    | some e => { outcome := .error e, transcript := log_file, spawned := false }
    | none =>
        let body := renderItems repo.name (logBody ex.events false)
        { outcome := exitOutcome ex.exitCode,
          transcript := log_file.map (fun h => h ++ body),
          spawned := true }

end RRepos

namespace RRepos

/-- C7: target-directory resolution agrees with the spec's
`resolveTargetDir` in every case, and on the spec's concrete examples:
relative `path="x"` with catalog dir `/a/b` gives `/a/b/x`, an absolute
path passes through unchanged, and an unset path defaults to
`/a/b/cloned_repos/<name>`. -/
theorem c7_resolve_target_dir :
    (∀ (cwd : String) (r : Repository), r.get_target_dir cwd = resolveTargetDirSpec cwd r) ∧
    Repository.get_target_dir "/cwd"
      { sampleRepo1 with path := some "x", config_dir := some "/a/b" } = "/a/b/x" ∧
    Repository.get_target_dir "/cwd"
      { sampleRepo1 with path := some "/abs/dir", config_dir := some "/a/b" } = "/abs/dir" ∧
    Repository.get_target_dir "/cwd"
      { sampleRepo1 with path := none, config_dir := some "/a/b" } =
        "/a/b/cloned_repos/repo1" := by
  refine ⟨?_, by decide, by decide, by decide⟩
  intro cwd r
  cases hp : r.path with
  | none =>
      cases hc : r.config_dir <;>
        simp [Repository.get_target_dir, resolveTargetDirSpec, hp, hc]
  | some p =>
      cases hc : r.config_dir <;>
        simp [Repository.get_target_dir, resolveTargetDirSpec, hp, hc]

/-- C10: an explicitly present but empty name list leaves the catalog
unfiltered, and combined with a tag the filter reduces to the tag filter
alone. -/
theorem c10_empty_names_list_behaves_like_absent (c : Config) :
    c.filter_repositories none (some []) = c.repositories ∧
    ∀ t : String, c.filter_repositories (some t) (some []) = c.filter_by_tag (some t) := by
  constructor
  · simp [Config.filter_repositories, Config.filter_by_names]
  · intro t
    simp [Config.filter_repositories, Config.filter_by_names, Config.filter_by_tag]

/-- C1 counterexample: on the one-repository catalog `[repo1]`, filtering
with a present but empty name list returns `[repo1]`, not the empty
membership filtrate the claim prescribes for every present `names`. -/
theorem c1_counterexample :
    ({ repositories := [sampleRepo1] } : Config).filter_repositories none (some []) ≠
      ({ repositories := [sampleRepo1] } : Config).repositories.filter
        (fun repo => ([] : List String).contains repo.name) := by
  decide

/-- C1 (amended): filtering matches the §4.1 table, except that a present
but empty name list behaves like an absent names filter; both present
gives AND semantics (names first, then tag), and the spec's concrete
two-repository examples hold. -/
theorem c1_filter_repositories_table :
    (∀ (c : Config) (tag : Option String) (names : Option (List String)),
        c.filter_repositories tag names = filterSpec c tag names) ∧
    sampleConfig.filter_repositories (some "frontend") none = [sampleRepo1] ∧
    sampleConfig.filter_repositories none (some ["repo2"]) = [sampleRepo2] ∧
    sampleConfig.filter_repositories (some "frontend") (some ["repo2"]) = [] := by
  refine ⟨?_, by decide, by decide, by decide⟩
  intro c tag names
  match tag, names with
  | none, none => rfl
  | some t, none => rfl
  | none, some ns =>
      simp [Config.filter_repositories, Config.filter_by_names, filterSpec]
  | some t, some ns =>
      by_cases h : ns.isEmpty
      · simp [Config.filter_repositories, Config.filter_by_names, filterSpec, h]
      · simp [Config.filter_repositories, Config.filter_by_names, filterSpec, h,
          List.filter_filter]


/-- C4: when the resolved target directory does not exist, `run_command`
fails with the directory-missing error, spawns no process, and creates
no transcript even when a log directory was requested. -/
theorem c4_missing_directory (cwd timestamp : String) (dirExists : String → Bool)
    (repo : Repository) (command : String) (log_dir : Option String) (ex : Exec)
    (h : dirExists (repo.get_target_dir cwd) = false) :
    run_command cwd timestamp dirExists repo command log_dir ex =
      { outcome := .error ("Repository directory does not exist: " ++ repo.get_target_dir cwd),
        transcript := none, spawned := false } := by
  simp [run_command, h]

/-- Witness for C4 at a concrete repository with a requested log
directory and a filesystem on which no directory exists. -/
theorem c4_missing_directory_witness :
    (fun _ : String => false) (sampleRepo1.get_target_dir "/cwd") = false ∧
    run_command "/cwd" "20240101_000000" (fun _ => false) sampleRepo1 "make" (some "logs")
        { spawn := none, events := [], exitCode := some 0 } =
      { outcome := .error ("Repository directory does not exist: " ++
          sampleRepo1.get_target_dir "/cwd"),
        transcript := none, spawned := false } :=
  ⟨rfl, c4_missing_directory "/cwd" "20240101_000000" (fun _ => false) sampleRepo1 "make"
    (some "logs") { spawn := none, events := [], exitCode := some 0 } rfl⟩

/-- C5: once the child has been spawned and both pumps have finished, the
outcome is determined solely by the exit status: code 0 succeeds, a
non-zero code `c` fails carrying `c`, and a signal-terminated status
(no code) fails carrying `-1`; the pumps' lines never change it. -/
theorem c5_exit_status (cwd timestamp : String) (dirExists : String → Bool)
    (repo : Repository) (command : String) (log_dir : Option String) (ex : Exec)
    (hdir : dirExists (repo.get_target_dir cwd) = true)
    (hspawn : ex.spawn = none) :
    (ex.exitCode = some 0 →
      (run_command cwd timestamp dirExists repo command log_dir ex).outcome = .ok ()) ∧
    (∀ c : Int, ex.exitCode = some c → c ≠ 0 →
      (run_command cwd timestamp dirExists repo command log_dir ex).outcome =
        .error ("Command failed with exit code: " ++ toString c)) ∧
    (ex.exitCode = none →
      (run_command cwd timestamp dirExists repo command log_dir ex).outcome =
        .error ("Command failed with exit code: -1")) ∧
    (∀ events2 : List (Bool × String),
      (run_command cwd timestamp dirExists repo command log_dir
          { ex with events := events2 }).outcome =
        (run_command cwd timestamp dirExists repo command log_dir ex).outcome) := by
  refine ⟨?_, ?_, ?_, ?_⟩
  · intro h0
    simp [run_command, hdir, hspawn, exitOutcome, h0]
  · intro c hc hne
    simp [run_command, hdir, hspawn, exitOutcome, hc, hne]
  · intro hn
    have : toString ((-1 : Int)) = "-1" := rfl
    simp [run_command, hdir, hspawn, exitOutcome, hn, this]
  · intro events2
    simp [run_command, hdir, hspawn]

/-- Witness for C5 at a concrete run whose child exits with code 7. -/
theorem c5_exit_status_witness :
    (fun _ : String => true) (sampleRepo1.get_target_dir "/cwd") = true ∧
    (run_command "/cwd" "20240101_000000" (fun _ => true) sampleRepo1 "make" none
        { spawn := none, events := [(true, "out")], exitCode := some 7 }).outcome =
      .error ("Command failed with exit code: " ++ toString (7 : Int)) := by
  refine ⟨rfl, ?_⟩
  exact (c5_exit_status "/cwd" "20240101_000000" (fun _ => true) sampleRepo1 "make" none
    { spawn := none, events := [(true, "out")], exitCode := some 7 } rfl rfl).2.1
    7 rfl (by decide)

/-- A line of the form `<name> | <line>` contains a pipe character. -/
theorem pipe_mem_data (a b : String) : '|' ∈ (a ++ " | " ++ b).data := by
  rw [String.data_append, String.data_append]
  refine List.mem_append.mpr (Or.inl ?_)
  refine List.mem_append.mpr (Or.inr ?_)
  decide

/-- A repository-prefixed transcript line is never the stderr marker. -/
theorem pipe_line_ne_marker (a b : String) : a ++ " | " ++ b ≠ markerStr := by
  intro he
  have hm := pipe_mem_data a b
  rw [he] at hm
  exact absurd hm (by decide)

/-- The `Repository:` header line is never the stderr marker. -/
theorem repository_line_ne_marker (b : String) : "Repository: " ++ b ≠ markerStr := by
  intro he
  have hd := congrArg String.data he
  rw [String.data_append] at hd
  have h1 : ("Repository: ".data ++ b.data).head? = some 'R' := rfl
  rw [hd] at h1
  exact absurd h1 (by decide)

/-- The `Command:` header line is never the stderr marker. -/
theorem command_line_ne_marker (b : String) : "Command: " ++ b ≠ markerStr := by
  intro he
  have hd := congrArg String.data he
  rw [String.data_append] at hd
  have h1 : ("Command: ".data ++ b.data).head? = some 'C' := rfl
  rw [hd] at h1
  exact absurd h1 (by decide)

/-- The `Directory:` header line is never the stderr marker. -/
theorem directory_line_ne_marker (b : String) : "Directory: " ++ b ≠ markerStr := by
  intro he
  have hd := congrArg String.data he
  rw [String.data_append] at hd
  have h1 : ("Directory: ".data ++ b.data).head? = some 'D' := rfl
  rw [hd] at h1
  exact absurd h1 (by decide)

/-- The `Timestamp:` header line is never the stderr marker. -/
theorem timestamp_line_ne_marker (b : String) : "Timestamp: " ++ b ≠ markerStr := by
  intro he
  have hd := congrArg String.data he
  rw [String.data_append] at hd
  have h1 : ("Timestamp: ".data ++ b.data).head? = some 'T' := rfl
  rw [hd] at h1
  exact absurd h1 (by decide)

/-- The header block never contains the stderr marker line. -/
theorem marker_not_mem_header (name command dir timestamp : String) :
    markerStr ∉ headerLines name command dir timestamp := by
  intro hm
  simp only [headerLines, List.mem_cons, List.mem_singleton] at hm
  rcases hm with h | h | h | h | h | h
  · exact repository_line_ne_marker name h.symm
  · exact command_line_ne_marker command h.symm
  · exact directory_line_ne_marker dir h.symm
  · exact timestamp_line_ne_marker timestamp h.symm
  · exact absurd h (by decide)
  · exact absurd h (by decide)

/-- The stderr marker occurs in the header block zero times. -/
theorem header_count_marker (name command dir timestamp : String) :
    (headerLines name command dir timestamp).count markerStr = 0 :=
  List.count_eq_zero.mpr (marker_not_mem_header name command dir timestamp)

/-- Rendering one body item contributes a marker line exactly when the
item is the marker itself. -/
theorem renderItem_count_marker (name : String) (item : LogItem) :
    (renderItem name item).count markerStr =
      if item = LogItem.stderrMarker then 1 else 0 := by
  cases item with
  | outLine l =>
      simp [renderItem, List.count_singleton, pipe_line_ne_marker name l]
  | stderrMarker =>
      simp [renderItem, List.count_cons, List.count_singleton, markerStr]
  | errLine l =>
      simp [renderItem, List.count_singleton, pipe_line_ne_marker name l]

/-- The rendered body contains the marker line as often as the item list
contains the marker item. -/
theorem renderItems_count_marker (name : String) (items : List LogItem) :
    (renderItems name items).count markerStr = items.count LogItem.stderrMarker := by
  induction items with
  | nil => rfl
  | cons item rest ih =>
      rw [renderItems, List.count_append, ih, renderItem_count_marker,
        List.count_cons]
      cases item <;> simp [Nat.add_comm]

/-- Once the stderr pump has written its marker, it never writes it
again. -/
theorem logBody_true_count (events : List (Bool × String)) :
    (logBody events true).count LogItem.stderrMarker = 0 := by
  induction events with
  | nil => rfl
  | cons e rest ih =>
      obtain ⟨b, l⟩ := e
      cases b <;> simp [logBody, List.count_cons, ih]

/-- The body contains the marker item exactly once when any stderr line
was logged, and never otherwise. -/
theorem logBody_false_count (events : List (Bool × String)) :
    (logBody events false).count LogItem.stderrMarker =
      if eventLines false events = [] then 0 else 1 := by
  induction events with
  | nil => rfl
  | cons e rest ih =>
      obtain ⟨b, l⟩ := e
      cases b with
      | false =>
          simp [logBody, eventLines, List.count_cons, logBody_true_count rest]
      | true =>
          simpa [logBody, eventLines, List.count_cons] using ih

/-- With no stderr event, the body is the stdout lines in source order. -/
theorem logBody_all_out (events : List (Bool × String)) (hdr : Bool)
    (h : eventLines false events = []) :
    logBody events hdr = (eventLines true events).map LogItem.outLine := by
  induction events generalizing hdr with
  | nil => rfl
  | cons e rest ih =>
      obtain ⟨b, l⟩ := e
      cases b with
      | false => simp [eventLines] at h
      | true =>
          simp only [eventLines, List.filter_cons] at h ⊢
          simp only [logBody]
          simp only [show (((true, l).1 == false)) = false from rfl,
            show (((true, l).1 == true)) = true from rfl] at h ⊢
          simp [ih hdr (by simpa [eventLines] using h), eventLines]

/-- Rendering a pure-stdout body prefixes every line with the repository
name. -/
theorem renderItems_map_out (name : String) (ls : List String) :
    renderItems name (ls.map LogItem.outLine) =
      ls.map (fun l => name ++ " | " ++ l) := by
  induction ls with
  | nil => rfl
  | cons l rest ih => simp [renderItems, renderItem, ih]

/-- When a stderr line was logged, the body splits as stdout lines, then
the one marker, then the first stderr line. -/
theorem logBody_split (events : List (Bool × String))
    (h : eventLines false events ≠ []) :
    ∃ (p : List String) (l : String) (q : List LogItem),
      logBody events false =
        p.map LogItem.outLine ++
          LogItem.stderrMarker :: LogItem.errLine l :: q ∧
      (eventLines false events).head? = some l := by
  induction events with
  | nil => exact absurd rfl h
  | cons e rest ih =>
      obtain ⟨b, l⟩ := e
      cases b with
      | false =>
          exact ⟨[], l, logBody rest true, by simp [logBody], by simp [eventLines]⟩
      | true =>
          have h2 : eventLines false rest ≠ [] := by
            simpa [eventLines] using h
          obtain ⟨p, l2, q, h3, h4⟩ := ih h2
          refine ⟨l :: p, l2, q, ?_, ?_⟩
          · simp [logBody, h3]
          · simpa [eventLines] using h4

/-- C2 counterexample: for a child printing `one`, `two`, `three` on
stdout only, the transcript body (the lines after the six header lines)
is not those three lines but their repository-prefixed forms. -/
theorem c2_counterexample :
    ((run_command "/cwd" "20240101_000000" (fun _ => true) sampleRepo1 "make" (some "logs")
        { spawn := none,
          events := [(true, "one"), (true, "two"), (true, "three")],
          exitCode := some 0 }).transcript.getD []).drop 6 ≠
      ["one", "two", "three"] := by
  decide

/-- C2 (amended): for a run with logging enabled whose child writes only
stdout lines, the transcript is the header block followed by exactly
those lines in source order, each prefixed with `<repo> | `, and no line
of the transcript is the `=== STDERR ===` marker. -/
theorem c2_stdout_only_transcript (cwd timestamp : String) (dirExists : String → Bool)
    (repo : Repository) (command log_dir : String) (ex : Exec)
    (hdir : dirExists (repo.get_target_dir cwd) = true)
    (hspawn : ex.spawn = none)
    (herr : eventLines false ex.events = []) :
    (run_command cwd timestamp dirExists repo command (some log_dir) ex).transcript =
      some (headerLines repo.name command (repo.get_target_dir cwd) timestamp ++
        (eventLines true ex.events).map (fun l => repo.name ++ " | " ++ l)) ∧
    ∀ lines,
      (run_command cwd timestamp dirExists repo command (some log_dir) ex).transcript =
        some lines → markerStr ∉ lines := by
  have hbody : renderItems repo.name (logBody ex.events false) =
      (eventLines true ex.events).map (fun l => repo.name ++ " | " ++ l) := by
    rw [logBody_all_out ex.events false herr, renderItems_map_out]
  have htr : (run_command cwd timestamp dirExists repo command (some log_dir) ex).transcript =
      some (headerLines repo.name command (repo.get_target_dir cwd) timestamp ++
        (eventLines true ex.events).map (fun l => repo.name ++ " | " ++ l)) := by
    simp [run_command, hdir, hspawn, hbody]
  refine ⟨htr, ?_⟩
  intro lines hl hm
  rw [htr] at hl
  have hl2 : lines =
      headerLines repo.name command (repo.get_target_dir cwd) timestamp ++
        (eventLines true ex.events).map (fun l => repo.name ++ " | " ++ l) :=
    (Option.some.inj hl).symm
  rw [hl2] at hm
  rcases List.mem_append.mp hm with h | h
  · exact marker_not_mem_header _ _ _ _ h
  · obtain ⟨l, _, h2⟩ := List.mem_map.mp h
    exact pipe_line_ne_marker repo.name l h2

/-- Witness for C2 at a concrete stdout-only run of three lines. -/
theorem c2_stdout_only_transcript_witness :
    (fun _ : String => true) (sampleRepo1.get_target_dir "/cwd") = true ∧
    eventLines false [(true, "one"), (true, "two"), (true, "three")] = [] ∧
    (run_command "/cwd" "20240101_000000" (fun _ => true) sampleRepo1 "make" (some "logs")
        { spawn := none,
          events := [(true, "one"), (true, "two"), (true, "three")],
          exitCode := some 0 }).transcript =
      some (headerLines "repo1" "make" (sampleRepo1.get_target_dir "/cwd") "20240101_000000" ++
        (eventLines true [(true, "one"), (true, "two"), (true, "three")]).map
          (fun l => "repo1" ++ " | " ++ l)) :=
  ⟨rfl, rfl,
    (c2_stdout_only_transcript "/cwd" "20240101_000000" (fun _ => true) sampleRepo1 "make"
      "logs"
      { spawn := none,
        events := [(true, "one"), (true, "two"), (true, "three")],
        exitCode := some 0 } rfl rfl rfl).1⟩

/-- C6: in every run with an open transcript, the `=== STDERR ===`
marker line appears in the transcript exactly once when at least one
stderr line was logged and never otherwise, and the body places the one
marker after stdout lines only, immediately before the first logged
stderr line, whatever the lock interleaving. -/
theorem c6_stderr_marker_once (cwd timestamp : String) (dirExists : String → Bool)
    (repo : Repository) (command log_dir : String) (ex : Exec)
    (hdir : dirExists (repo.get_target_dir cwd) = true)
    (hspawn : ex.spawn = none) :
    ∃ lines,
      (run_command cwd timestamp dirExists repo command (some log_dir) ex).transcript =
        some lines ∧
      lines.count markerStr = (if eventLines false ex.events = [] then 0 else 1) ∧
      (markerStr ∈ lines ↔ eventLines false ex.events ≠ []) ∧
      (eventLines false ex.events ≠ [] →
        ∃ (p : List String) (l : String) (q : List LogItem),
          logBody ex.events false =
            p.map LogItem.outLine ++
              LogItem.stderrMarker :: LogItem.errLine l :: q ∧
          (eventLines false ex.events).head? = some l) := by
  refine ⟨headerLines repo.name command (repo.get_target_dir cwd) timestamp ++
    renderItems repo.name (logBody ex.events false), ?_, ?_, ?_, ?_⟩
  · simp [run_command, hdir, hspawn]
  · rw [List.count_append, header_count_marker, renderItems_count_marker,
      logBody_false_count]
    simp
  · rw [List.mem_append]
    constructor
    · intro hm hnil
      rcases hm with h | h
      · exact marker_not_mem_header _ _ _ _ h
      · have := renderItems_count_marker repo.name (logBody ex.events false)
        rw [logBody_false_count, if_pos hnil] at this
        exact absurd (List.count_pos_iff.mpr h) (by omega)
    · intro hne
      refine Or.inr (List.count_pos_iff.mp ?_)
      rw [renderItems_count_marker, logBody_false_count, if_neg hne]
      omega
  · exact logBody_split ex.events

/-- Witness for C6 at a concrete run interleaving two stdout and two
stderr lines. -/
theorem c6_stderr_marker_once_witness :
    (fun _ : String => true) (sampleRepo1.get_target_dir "/cwd") = true ∧
    ∃ lines,
      (run_command "/cwd" "20240101_000000" (fun _ => true) sampleRepo1 "make" (some "logs")
          { spawn := none,
            events := [(true, "o1"), (false, "e1"), (true, "o2"), (false, "e2")],
            exitCode := some 0 }).transcript = some lines ∧
      lines.count markerStr = 1 := by
  refine ⟨rfl, ?_⟩
  obtain ⟨lines, h1, h2, -, -⟩ :=
    c6_stderr_marker_once "/cwd" "20240101_000000" (fun _ => true) sampleRepo1 "make" "logs"
      { spawn := none,
        events := [(true, "o1"), (false, "e1"), (true, "o2"), (false, "e2")],
        exitCode := some 0 } rfl rfl
  exact ⟨lines, h1, by simpa using h2⟩

/-- What one dispatch loop did: the repositories on which the operation
was invoked, in order; the `Error: ...` lines printed to the error
stream; and the function's returned `Result`. -/
structure DispatchResult where
  invoked : List Repository
  reported : List String
  result : Except String Unit
deriving DecidableEq

/-- Embeds the sequential per-repository loop shared by `run_command` in
`src/main.rs` (lines 256-262) and `RunCommand::execute` in
`src/commands/run.rs` (lines 66-75): each repository's operation is
awaited; an `Err` is caught on the spot, printed as `Error: ...`, and
the loop continues; the surrounding function always returns `Ok(())`. -/
def dispatch_run (runOne : Repository → Except String Unit) :
    List Repository → DispatchResult
  | [] => { invoked := [], reported := [], result := .ok () }
  | repo :: rest =>
      let outcome := runOne repo
      let tail := dispatch_run runOne rest
      { invoked := repo :: tail.invoked,
        reported :=
          (match outcome with
            | .ok _ => []
            | .error e => ["Error: " ++ e]) ++ tail.reported,
        result := .ok () }

/-- The process exit code induced by `main`'s `anyhow::Result`: `Ok`
exits 0, `Err` exits non-zero. -/
def process_exit : Except String Unit → Nat
  | .ok _ => 0
  | .error _ => 1

/-- A minimal catalog entry with the given name, for concrete batches. -/
def repoNamed (n : String) : Repository :=
  { name := n, url := "git@github.com:owner/" ++ n ++ ".git",
    tags := [], path := none, branch := none, config_dir := none }

/-- Embeds the `--parallel` branch of `RunCommand::execute`
(`src/commands/run.rs` lines 50-65) and of `create_pull_requests`
(`src/main.rs` lines 307-330): the per-repository `async move` blocks
are collected into a `Vec` WITHOUT `tokio::spawn`, so each future is
inert until the loop awaits it, and awaiting runs that repository's
whole operation to completion before the next future starts.  `trace`
lists the observable steps of one repository's operation; the result is
the order in which steps of the whole batch happen. -/
def run_parallel_branch (trace : Repository → List String) :
    List Repository → List String
  | [] => []
  | repo :: rest => trace repo ++ run_parallel_branch trace rest

/-- Embeds the sequential branch of the same functions: one repository's
operation awaited to completion before the next begins. -/
def run_sequential_branch (trace : Repository → List String) :
    List Repository → List String
  | [] => []
  | repo :: rest => trace repo ++ run_sequential_branch trace rest

/-- Options of the pull-request workflow, embedding `PrOptions` from
`src/github/types.rs` as used by `src/github/api.rs`. -/
structure PrOptions where
  title : String
  body : String
  branch_name : Option String
  base_branch : Option String
  commit_msg : Option String
  draft : Bool
  token : String
  create_only : Bool
deriving DecidableEq, Repr

/-- The opaque shell collaborators of the pull-request workflow
(`src/git.rs`), each either succeeding or producing an error string;
`hasChanges` is `git::has_changes`, and `apiResult` the GitHub
`POST /pulls` call returning the PR URL. -/
structure GitWorld where
  hasChanges : Except String Bool
  checkoutResult : Except String Unit
  addResult : Except String Unit
  commitResult : Except String Unit
  pushResult : Except String Unit
  apiResult : Except String String
deriving DecidableEq

/-- A state-changing step the pull-request workflow attempted. -/
inductive GitAction where
  | checkoutBranch (name : String)
  | addAll
  | commit (msg : String)
  | push (branch : String)
  | createPr
deriving DecidableEq, Repr

/-- What one `create_pull_request` invocation did: its returned
`Result`, the git/API steps attempted in order, and the lines printed. -/
structure PrResult where
  result : Except String Unit
  actions : List GitAction
  messages : List String
deriving DecidableEq

/-- Embeds `create_pull_request` (`src/github/api.rs` lines 17-61):
check for uncommitted changes and stop successfully with
`No changes detected` when there are none; otherwise create and check
out the branch (supplied name, or `automated-changes-` plus a 6-char
random suffix, passed here as `suffix`), stage everything, commit with
the supplied message or the PR title, and — unless create-only — push
and call the PR API, reporting its URL.  Any step's error is returned
as this repository's failure. -/
def create_pull_request (w : GitWorld) (suffix : String) (repo : Repository)
    (options : PrOptions) : PrResult :=
  match w.hasChanges with
  | .error e => { result := .error e, actions := [], messages := [] }
  | .ok false =>
      { result := .ok (), actions := [],
        messages := [repo.name ++ " | No changes detected"] }
  | .ok true =>
      let branch_name := options.branch_name.getD ("automated-changes-" ++ suffix)
      match w.checkoutResult with
      | .error e =>
          { result := .error e, actions := [.checkoutBranch branch_name], messages := [] }
      | .ok _ =>
          match w.addResult with
          | .error e =>
              { result := .error e,
                actions := [.checkoutBranch branch_name, .addAll], messages := [] }
          | .ok _ =>
              let commit_message := options.commit_msg.getD options.title
              match w.commitResult with
              | .error e =>
                  { result := .error e,
                    actions := [.checkoutBranch branch_name, .addAll,
                      .commit commit_message],
                    messages := [] }
              | .ok _ =>
                  if options.create_only then
                    { result := .ok (),
                      actions := [.checkoutBranch branch_name, .addAll,
                        .commit commit_message],
                      messages := [] }
                  else
                    match w.pushResult with
                    | .error e =>
                        { result := .error e,
                          actions := [.checkoutBranch branch_name, .addAll,
                            .commit commit_message, .push branch_name],
                          messages := [] }
                    | .ok _ =>
                        match w.apiResult with
                        | .error e =>
                            { result := .error e,
                              actions := [.checkoutBranch branch_name, .addAll,
                                .commit commit_message, .push branch_name, .createPr],
                              messages := [] }
                        | .ok url =>
                            { result := .ok (),
                              actions := [.checkoutBranch branch_name, .addAll,
                                .commit commit_message, .push branch_name, .createPr],
                              messages := [repo.name ++ " | Pull request created: " ++ url] }

/-- C3: the dispatch loop invokes the operation on every repository in
order, catches each per-repository failure and reports it as an
`Error: ...` line without skipping the remaining repositories, and
always returns `Ok`, so the process exit code stays 0; in particular,
for `{r1, r2, r3}` with only `r2` failing, exactly `r2`'s error is
reported, `r1` and `r3` succeed, and the exit code is 0. -/
theorem c3_batch_isolation :
    (∀ (repos : List Repository) (runOne : Repository → Except String Unit),
      (dispatch_run runOne repos).invoked = repos ∧
      (dispatch_run runOne repos).reported =
        repos.filterMap (fun repo =>
          match runOne repo with
          | .ok _ => none
          | .error e => some ("Error: " ++ e)) ∧
      (dispatch_run runOne repos).result = .ok () ∧
      process_exit (dispatch_run runOne repos).result = 0) ∧
    (∀ runOne : Repository → Except String Unit,
      runOne (repoNamed "r2") = .error "Command failed with exit code: 1" →
      runOne (repoNamed "r1") = .ok () → runOne (repoNamed "r3") = .ok () →
      (dispatch_run runOne [repoNamed "r1", repoNamed "r2", repoNamed "r3"]).reported =
        ["Error: Command failed with exit code: 1"] ∧
      [repoNamed "r1", repoNamed "r2", repoNamed "r3"].filter
          (fun repo => runOne repo == .ok ()) = [repoNamed "r1", repoNamed "r3"] ∧
      process_exit
        (dispatch_run runOne [repoNamed "r1", repoNamed "r2", repoNamed "r3"]).result = 0) := by
  constructor
  · intro repos runOne
    refine ⟨?_, ?_, ?_, ?_⟩
    · induction repos with
      | nil => rfl
      | cons repo rest ih => simp [dispatch_run, ih]
    · induction repos with
      | nil => rfl
      | cons repo rest ih =>
          simp only [dispatch_run, List.filterMap_cons]
          cases runOne repo <;> simp [ih]
    · cases repos <;> rfl
    · cases repos <;> rfl
  · intro runOne h2 h1 h3
    refine ⟨?_, ?_, ?_⟩
    · simp [dispatch_run, h1, h2, h3]
    · simp only [List.filter, h1, h2, h3]
      decide
    · cases hr : runOne (repoNamed "r1") <;> simp [dispatch_run, process_exit]

/-- Witness for C3 at the concrete three-repository batch in which only
`r2`'s command exits non-zero. -/
theorem c3_batch_isolation_witness :
    (fun repo : Repository =>
        if repo.name = "r2" then Except.error "Command failed with exit code: 1"
        else Except.ok ()) (repoNamed "r2") = .error "Command failed with exit code: 1" ∧
    (dispatch_run
        (fun repo : Repository =>
          if repo.name = "r2" then Except.error "Command failed with exit code: 1"
          else Except.ok ())
        [repoNamed "r1", repoNamed "r2", repoNamed "r3"]).reported =
      ["Error: Command failed with exit code: 1"] := by
  refine ⟨by decide, ?_⟩
  exact ((c3_batch_isolation.2
    (fun repo : Repository =>
      if repo.name = "r2" then Except.error "Command failed with exit code: 1"
      else Except.ok ())
    (by decide) (by decide) (by decide)).1)

/-- C8 evidence: in the `--parallel` branch of `run` (and `pr`), the
batch's observable step order is identical to the sequential branch's —
each repository's whole operation runs at its await — and in the
concrete two-repository batch every step of `r2` happens only after the
last step of `r1`, contradicting an immediate launch of independent
tasks. -/
theorem c8_parallel_run_is_sequential :
    (∀ (trace : Repository → List String) (repos : List Repository),
      run_parallel_branch trace repos = run_sequential_branch trace repos) ∧
    run_parallel_branch
        (fun repo => [repo.name ++ " start", repo.name ++ " end"])
        [repoNamed "r1", repoNamed "r2"] =
      ["r1 start", "r1 end", "r2 start", "r2 end"] := by
  constructor
  · intro trace repos
    induction repos with
    | nil => rfl
    | cons repo rest ih => simp [run_parallel_branch, run_sequential_branch, ih]
  · decide

/-- C9: when the uncommitted-changes check reports no changes, the
pull-request workflow prints `No changes detected`, returns success,
and performs no git or API step at all: no branch checkout, no staging,
no commit, no push, and no PR-creation call. -/
theorem c9_no_changes_stops (w : GitWorld) (suffix : String) (repo : Repository)
    (options : PrOptions) (h : w.hasChanges = .ok false) :
    create_pull_request w suffix repo options =
      { result := .ok (), actions := [],
        messages := [repo.name ++ " | No changes detected"] } := by
  simp [create_pull_request, h]

/-- Witness for C9 at a concrete repository and world without changes. -/
theorem c9_no_changes_stops_witness :
    ({ hasChanges := .ok false, checkoutResult := .ok (), addResult := .ok (),
       commitResult := .ok (), pushResult := .ok (),
       apiResult := .ok "https://github.com/owner/repo1/pull/1" } : GitWorld).hasChanges =
      .ok false ∧
    create_pull_request
        { hasChanges := .ok false, checkoutResult := .ok (), addResult := .ok (),
          commitResult := .ok (), pushResult := .ok (),
          apiResult := .ok "https://github.com/owner/repo1/pull/1" }
        "a1b2c3" sampleRepo1
        { title := "Automated changes", body := "This PR was created automatically",
          branch_name := none, base_branch := none, commit_msg := none,
          draft := false, token := "tok", create_only := false } =
      { result := .ok (), actions := [],
        messages := ["repo1" ++ " | No changes detected"] } :=
  ⟨rfl,
    c9_no_changes_stops
      { hasChanges := .ok false, checkoutResult := .ok (), addResult := .ok (),
        commitResult := .ok (), pushResult := .ok (),
        apiResult := .ok "https://github.com/owner/repo1/pull/1" }
      "a1b2c3" sampleRepo1
      { title := "Automated changes", body := "This PR was created automatically",
        branch_name := none, base_branch := none, commit_msg := none,
        draft := false, token := "tok", create_only := false } rfl⟩

end RRepos
